import Mathlib

/-!
Verification development for the Spotify PKCE auth / playback controller core
of the messier-systems repository.

The definitions below are a shallow embedding of the TypeScript source:
  * `spotifyAuth` module (generateCodeVerifier, generateCodeChallenge,
    getSpotifyLoginUrl, generateRandomString, getAccessToken, handleCallback),
  * the music-window handlers of the terminal component
    (handlePlayPause, handleNext, handlePrev, handleSongClick,
    the volume-input onChange handler, and the login check on window open).

External effects are made explicit:
  * `localStorage` is a record of the five keys the code touches;
  * network and SDK calls are oracles passed as parameters describing the
    outcome the provider would give;
  * `Math.random`-driven character picks are an input stream of indices;
  * `window.crypto.subtle.digest('SHA-256', _)` is an abstract function
    parameter (it is a browser primitive, not code of this repository);
  * `Date.now()` is a `now : Nat` parameter (epoch milliseconds).

JavaScript truthiness on `string | null` values (null, undefined and the
empty string are falsy) is embedded as `jsTruthy` on `Option String`.
-/

/-- JS truthiness for a `string | null | undefined` value:
`null`/`undefined` (`none`) and the empty string are falsy. -/
def jsTruthy : Option String → Bool
  | none => false
  | some s => !(s == "")

/-- The five `localStorage` keys the source reads or writes:
`spotify_code_verifier`, `spotify_auth_state`, `spotify_access_token`,
`spotify_token_expiration`, `spotify_device_id`. `none` means the key is
absent.  The expiration key holds `expirationTime.toString()` in the source;
since `Nat.toString` is injective and nothing in the repository ever parses
the string back, the slot is modelled by the epoch-milliseconds number the
stored string denotes. -/
structure Storage where
  code_verifier : Option String
  auth_state : Option String
  access_token : Option String
  token_expiration : Option Nat
  device_id : Option String
deriving DecidableEq, Repr

/-- A storage with every key absent. -/
def Storage.empty : Storage := ⟨none, none, none, none, none⟩

/-- Outcome of the `fetch` of the token endpoint in `getAccessToken`:
the fetch (or a body parse) throws, the response has a non-ok HTTP status,
or it succeeds with a JSON body carrying optional `access_token` and
`expires_in` fields. -/
inductive TokenResponse where
  | netError
  | httpError
  | success (access_token : Option String) (expires_in : Option Nat)
deriving DecidableEq, Repr

/-- Embedding of `data.expires_in || 3600`: a missing field, and the falsy
value `0`, both default to 3600. -/
def expiresInOrDefault : Option Nat → Nat
  | none => 3600
  | some n => if n == 0 then 3600 else n

/-- Result of `getAccessToken`: the returned `string | null`, the storage
after the call, and whether a POST to the token endpoint was made. -/
structure ExchangeResult where
  token : Option String
  storage : Storage
  tokenRequested : Bool
deriving DecidableEq, Repr

/-- Embedding of `getAccessToken` (spotifyAuth lines 88-149).
Reads `spotify_code_verifier`; if falsy, returns null without a request.
Otherwise POSTs to the token endpoint (outcome given by `resp`): a thrown
error or non-ok status yields null; on success, if `access_token` is truthy
it stores the token and `Date.now() + expiresIn * 1000` (as a string) and
returns the token, else it returns null. The enclosing try/catch makes every
path return rather than throw. The `code` argument is part of the request
payload only. -/
def getAccessToken (resp : TokenResponse) (now : Nat) (code : String)
    (st : Storage) : ExchangeResult :=
  if jsTruthy st.code_verifier then
    match resp with
    | .netError => ⟨none, st, true⟩
    | .httpError => ⟨none, st, true⟩
    | .success tok? ei? =>
      if jsTruthy tok? then
        let accessToken := tok?.getD ""
        let expiresIn := expiresInOrDefault ei?
        let expirationTime := now + expiresIn * 1000
        ⟨some accessToken,
         { st with token_expiration := some expirationTime,
                   access_token := some accessToken },
         true⟩
      else ⟨none, st, true⟩
  else ⟨none, st, false⟩

/-- The `code` / `error` / `state` query (or fragment) parameters of the
provider callback, each possibly absent. -/
structure CallbackParams where
  code : Option String
  error : Option String
  state : Option String
deriving DecidableEq, Repr

/-- Which branch of `handleCallback` produced the result.  The branches are
distinguished in the source by their distinct `console.error` messages
("State mismatch - possible CSRF attack", "Spotify authentication error",
the fall-through `return null` for a missing code, and the exchange path). -/
inductive CbOutcome where
  | csrfMismatch
  | providerRejected
  | missingCode
  | exchangeFailed
  | success (t : String)
deriving DecidableEq, Repr

/-- Result of `handleCallback`: returned token, branch taken, storage after
the call, and whether the token endpoint was called. -/
structure CallbackResult where
  token : Option String
  outcome : CbOutcome
  storage : Storage
  tokenRequested : Bool
deriving DecidableEq, Repr

/-- Embedding of `handleCallback` (spotifyAuth lines 152-187).  It reads
`code`, `error`, `state` and the stored state, unconditionally removes
`spotify_auth_state`, then: fails if `state === null || state !== storedState`
(CSRF check); then fails if `error` is truthy; then, if `code` is truthy,
delegates to `getAccessToken`; otherwise returns null. -/
def handleCallback (resp : TokenResponse) (now : Nat) (p : CallbackParams)
    (st : Storage) : CallbackResult :=
  let storedState := st.auth_state
  let st₁ := { st with auth_state := none }
  if p.state = none ∨ p.state ≠ storedState then
    ⟨none, .csrfMismatch, st₁, false⟩
  else if jsTruthy p.error then
    ⟨none, .providerRejected, st₁, false⟩
  else if jsTruthy p.code then
    let r := getAccessToken resp now (p.code.getD "") st₁
    match r.token with
    | some t => ⟨some t, .success t, r.storage, r.tokenRequested⟩
    | none => ⟨none, .exchangeFailed, r.storage, r.tokenRequested⟩
  else
    ⟨none, .missingCode, st₁, false⟩

/-- C1: every callback whose `state` is absent or differs from the persisted
CSRF token fails on the csrf-mismatch branch, returns no access token, and
never issues a token-endpoint request. -/
theorem C1_csrf_mismatch_blocks_exchange (resp : TokenResponse) (now : Nat)
    (p : CallbackParams) (st : Storage)
    (h : p.state = none ∨ p.state ≠ st.auth_state) :
    (handleCallback resp now p st).token = none ∧
    (handleCallback resp now p st).outcome = .csrfMismatch ∧
    (handleCallback resp now p st).tokenRequested = false := by
  simp only [handleCallback]
  rw [if_pos h]
  exact ⟨rfl, rfl, rfl⟩

/-- C1 witness: a concrete mismatching callback (`state = "X"` against stored
`"S"`) returns no token, reports a CSRF mismatch, and makes no request. -/
theorem C1_csrf_mismatch_blocks_exchange_witness :
    (handleCallback (.success (some "tok") (some 3600)) 0
        ⟨some "abc", none, some "X"⟩
        ⟨some "v", some "S", none, none, none⟩).token = none ∧
    (handleCallback (.success (some "tok") (some 3600)) 0
        ⟨some "abc", none, some "X"⟩
        ⟨some "v", some "S", none, none, none⟩).outcome = .csrfMismatch ∧
    (handleCallback (.success (some "tok") (some 3600)) 0
        ⟨some "abc", none, some "X"⟩
        ⟨some "v", some "S", none, none, none⟩).tokenRequested = false :=
  C1_csrf_mismatch_blocks_exchange _ _ _ _ (Or.inr (by decide))

/-- Follows the spec's words for `completeLogin` (section 4.1, steps (a)-(g)):
check `error` first (clearing stored state), then compare `state` — leaving
the stored token in place on mismatch — then delete the stored token only
after the comparison succeeds, then check `code`, then exchange.  Written for
comparison against `handleCallback`, which is the source's behaviour. -/
def specCompleteLogin (resp : TokenResponse) (now : Nat) (p : CallbackParams)
    (st : Storage) : CallbackResult :=
  if jsTruthy p.error then
    ⟨none, .providerRejected, { st with auth_state := none }, false⟩
  else if p.state = none ∨ p.state ≠ st.auth_state then
    ⟨none, .csrfMismatch, st, false⟩
  else
    let st₁ := { st with auth_state := none }
    if jsTruthy p.code then
      let r := getAccessToken resp now (p.code.getD "") st₁
      match r.token with
      | some t => ⟨some t, .success t, r.storage, r.tokenRequested⟩
      | none => ⟨none, .exchangeFailed, r.storage, r.tokenRequested⟩
    else
      ⟨none, .missingCode, st₁, false⟩

/-- C2 counterexample: on a callback carrying both an `error` parameter and an
absent `state`, the spec's order (a-first) reports provider-rejected, but the
code checks the state first and reports csrf-mismatch — the checks are not in
the claimed order. -/
theorem C2_check_order_counterexample :
    (handleCallback .netError 0 ⟨some "c", some "access_denied", none⟩
        ⟨some "v", some "S", none, none, none⟩).outcome = .csrfMismatch ∧
    (specCompleteLogin .netError 0 ⟨some "c", some "access_denied", none⟩
        ⟨some "v", some "S", none, none, none⟩).outcome = .providerRejected ∧
    CbOutcome.csrfMismatch ≠ CbOutcome.providerRejected := by
  refine ⟨rfl, rfl, by decide⟩

/-- The token-endpoint POST is made exactly when the stored code verifier is
truthy. -/
theorem getAccessToken_requested (resp : TokenResponse) (now : Nat)
    (code : String) (st : Storage) :
    (getAccessToken resp now code st).tokenRequested = jsTruthy st.code_verifier := by
  simp only [getAccessToken]
  by_cases hv : jsTruthy st.code_verifier = true
  · rw [if_pos hv]
    cases resp with
    | netError => exact hv.symm
    | httpError => exact hv.symm
    | success tok? ei? =>
      dsimp only
      by_cases ht : jsTruthy tok? = true
      · rw [if_pos ht]; exact hv.symm
      · rw [if_neg ht]; exact hv.symm
  · rw [if_neg hv]
    simp only [Bool.not_eq_true] at hv
    exact hv.symm

/-- `getAccessToken` never touches the stored auth state. -/
theorem getAccessToken_storage_auth (resp : TokenResponse) (now : Nat)
    (code : String) (st : Storage) :
    (getAccessToken resp now code st).storage.auth_state = st.auth_state := by
  simp only [getAccessToken]
  by_cases hv : jsTruthy st.code_verifier = true
  · rw [if_pos hv]
    cases resp with
    | netError => rfl
    | httpError => rfl
    | success tok? ei? =>
      dsimp only
      by_cases ht : jsTruthy tok? = true
      · rw [if_pos ht]
      · rw [if_neg ht]
  · rw [if_neg hv]

/-- `getAccessToken` never touches the stored code verifier. -/
theorem getAccessToken_storage_verifier (resp : TokenResponse) (now : Nat)
    (code : String) (st : Storage) :
    (getAccessToken resp now code st).storage.code_verifier = st.code_verifier := by
  simp only [getAccessToken]
  by_cases hv : jsTruthy st.code_verifier = true
  · rw [if_pos hv]
    cases resp with
    | netError => rfl
    | httpError => rfl
    | success tok? ei? =>
      dsimp only
      by_cases ht : jsTruthy tok? = true
      · rw [if_pos ht]
      · rw [if_neg ht]
  · rw [if_neg hv]

/-- When the exchange returns null, storage is completely unchanged. -/
theorem getAccessToken_none_storage (resp : TokenResponse) (now : Nat)
    (code : String) (st : Storage)
    (h : (getAccessToken resp now code st).token = none) :
    (getAccessToken resp now code st).storage = st := by
  simp only [getAccessToken] at h ⊢
  by_cases hv : jsTruthy st.code_verifier = true
  · rw [if_pos hv] at h ⊢
    cases resp with
    | netError => rfl
    | httpError => rfl
    | success tok? ei? =>
      dsimp only at h ⊢
      by_cases ht : jsTruthy tok? = true
      · rw [if_pos ht] at h; cases h
      · rw [if_neg ht]
  · rw [if_neg hv]

/-- On an absent or mismatching state, `handleCallback` reduces to the
csrf-mismatch result. -/
theorem handleCallback_eq_mismatch (resp : TokenResponse) (now : Nat)
    (p : CallbackParams) (st : Storage)
    (hs : p.state = none ∨ p.state ≠ st.auth_state) :
    handleCallback resp now p st =
      ⟨none, .csrfMismatch, { st with auth_state := none }, false⟩ := by
  simp only [handleCallback]
  rw [if_pos hs]

/-- With a matching state and a truthy `error`, `handleCallback` reduces to
the provider-rejected result. -/
theorem handleCallback_eq_provider (resp : TokenResponse) (now : Nat)
    (p : CallbackParams) (st : Storage)
    (hs : ¬(p.state = none ∨ p.state ≠ st.auth_state))
    (he : jsTruthy p.error = true) :
    handleCallback resp now p st =
      ⟨none, .providerRejected, { st with auth_state := none }, false⟩ := by
  simp only [handleCallback]
  rw [if_neg hs, if_pos he]

/-- With a matching state, no error and a falsy `code`, `handleCallback`
reduces to the missing-code result. -/
theorem handleCallback_eq_missing (resp : TokenResponse) (now : Nat)
    (p : CallbackParams) (st : Storage)
    (hs : ¬(p.state = none ∨ p.state ≠ st.auth_state))
    (he : jsTruthy p.error = false) (hc : jsTruthy p.code = false) :
    handleCallback resp now p st =
      ⟨none, .missingCode, { st with auth_state := none }, false⟩ := by
  simp only [handleCallback]
  rw [if_neg hs, if_neg (by simp [he]), if_neg (by simp [hc])]

/-- With a matching state, no error and a truthy `code`, `handleCallback`
delegates to `getAccessToken` on the state-cleared storage. -/
theorem handleCallback_eq_exchange (resp : TokenResponse) (now : Nat)
    (p : CallbackParams) (st : Storage)
    (hs : ¬(p.state = none ∨ p.state ≠ st.auth_state))
    (he : jsTruthy p.error = false) (hc : jsTruthy p.code = true) :
    (handleCallback resp now p st).token =
        (getAccessToken resp now (p.code.getD "")
          { st with auth_state := none }).token ∧
    (handleCallback resp now p st).storage =
        (getAccessToken resp now (p.code.getD "")
          { st with auth_state := none }).storage ∧
    (handleCallback resp now p st).tokenRequested =
        (getAccessToken resp now (p.code.getD "")
          { st with auth_state := none }).tokenRequested := by
  simp only [handleCallback]
  rw [if_neg hs, if_neg (by simp [he]), if_pos hc]
  cases hr : (getAccessToken resp now (p.code.getD "")
      { st with auth_state := none }).token <;> simp [hr]

/-- In the exchange branch the outcome is success or exchange-failed,
according to the token the exchange returned. -/
theorem handleCallback_exchange_outcome (resp : TokenResponse) (now : Nat)
    (p : CallbackParams) (st : Storage)
    (hs : ¬(p.state = none ∨ p.state ≠ st.auth_state))
    (he : jsTruthy p.error = false) (hc : jsTruthy p.code = true) :
    ∀ t, ((getAccessToken resp now (p.code.getD "")
            { st with auth_state := none }).token = some t →
          (handleCallback resp now p st).outcome = .success t) ∧
        ((getAccessToken resp now (p.code.getD "")
            { st with auth_state := none }).token = none →
          (handleCallback resp now p st).outcome = .exchangeFailed) := by
  intro t
  simp only [handleCallback]
  rw [if_neg hs, if_neg (by simp [he]), if_pos hc]
  cases hr : (getAccessToken resp now (p.code.getD "")
      { st with auth_state := none }).token <;> simp [hr]

/-- C2 amended: `handleCallback` deletes the persisted CSRF token
unconditionally before any check, then checks in order: the state comparison
(csrf-mismatch on absence or mismatch), then the `error` parameter, then
`code` absence, and only then exchanges the code — the state check precedes
the error check and the deletion is not conditional on the comparison
succeeding. -/
theorem C2_actual_check_order (resp : TokenResponse) (now : Nat)
    (p : CallbackParams) (st : Storage) :
    (handleCallback resp now p st).storage.auth_state = none ∧
    ((p.state = none ∨ p.state ≠ st.auth_state) →
      (handleCallback resp now p st).outcome = .csrfMismatch ∧
      (handleCallback resp now p st).tokenRequested = false) ∧
    (¬(p.state = none ∨ p.state ≠ st.auth_state) → jsTruthy p.error = true →
      (handleCallback resp now p st).outcome = .providerRejected ∧
      (handleCallback resp now p st).tokenRequested = false) ∧
    (¬(p.state = none ∨ p.state ≠ st.auth_state) → jsTruthy p.error = false →
      jsTruthy p.code = false →
      (handleCallback resp now p st).outcome = .missingCode ∧
      (handleCallback resp now p st).tokenRequested = false) ∧
    (¬(p.state = none ∨ p.state ≠ st.auth_state) → jsTruthy p.error = false →
      jsTruthy p.code = true →
      (handleCallback resp now p st).tokenRequested = jsTruthy st.code_verifier) := by
  by_cases hs : p.state = none ∨ p.state ≠ st.auth_state
  · rw [handleCallback_eq_mismatch resp now p st hs]
    exact ⟨rfl, fun _ => ⟨rfl, rfl⟩, fun h => absurd hs h, fun h => absurd hs h,
      fun h => absurd hs h⟩
  · by_cases he : jsTruthy p.error = true
    · rw [handleCallback_eq_provider resp now p st hs he]
      exact ⟨rfl, fun h => absurd h hs, fun _ _ => ⟨rfl, rfl⟩,
        fun _ he' _ => absurd he (by simp [he']),
        fun _ he' _ => absurd he (by simp [he'])⟩
    · have he' : jsTruthy p.error = false := by
        cases hE : jsTruthy p.error
        · rfl
        · exact absurd hE he
      by_cases hc : jsTruthy p.code = true
      · have hx := handleCallback_eq_exchange resp now p st hs he' hc
        refine ⟨?_, fun h => absurd h hs,
          fun _ hE => absurd hE he,
          fun _ _ hc' => absurd hc (by simp [hc']),
          fun _ _ _ => ?_⟩
        · rw [hx.2.1, getAccessToken_storage_auth]
        · rw [hx.2.2, getAccessToken_requested]
      · have hc' : jsTruthy p.code = false := by
          cases hC : jsTruthy p.code
          · rfl
          · exact absurd hC hc
        rw [handleCallback_eq_missing resp now p st hs he' hc']
        exact ⟨rfl, fun h => absurd h hs, fun _ hE => absurd hE he,
          fun _ _ _ => ⟨rfl, rfl⟩, fun _ _ hC => absurd hC hc⟩

/-- C2 amended witness: at a concrete mismatching input the stored token is
gone and the csrf-mismatch branch fired. -/
theorem C2_actual_check_order_witness :
    (handleCallback .netError 0 ⟨some "c", some "access_denied", none⟩
        ⟨some "v", some "S", none, none, none⟩).storage.auth_state = none ∧
    (handleCallback .netError 0 ⟨some "c", some "access_denied", none⟩
        ⟨some "v", some "S", none, none, none⟩).outcome = .csrfMismatch :=
  have h := C2_actual_check_order .netError 0 ⟨some "c", some "access_denied", none⟩
    ⟨some "v", some "S", none, none, none⟩
  ⟨h.1, (h.2.1 (Or.inl rfl)).1⟩

/-- C8 counterexample: a complete, successful exchange (matching state,
code present, provider returns `tok1`) leaves `spotify_code_verifier`
untouched in storage — the verifier is not deleted after consumption. -/
theorem C8_verifier_not_deleted_counterexample :
    (handleCallback (.success (some "tok1") (some 3600)) 0
        ⟨some "abc123", none, some "S1"⟩
        ⟨some "v", some "S1", none, none, none⟩).token = some "tok1" ∧
    (handleCallback (.success (some "tok1") (some 3600)) 0
        ⟨some "abc123", none, some "S1"⟩
        ⟨some "v", some "S1", none, none, none⟩).storage.code_verifier =
      some "v" := by
  refine ⟨by decide, by decide⟩

/-- C8 amended: the persisted code verifier survives the callback unchanged —
`handleCallback` (and `getAccessToken`) never delete `spotify_code_verifier`;
only `spotify_auth_state` is single-use, and it is removed unconditionally. -/
theorem C8_verifier_persists (resp : TokenResponse) (now : Nat)
    (p : CallbackParams) (st : Storage) :
    (handleCallback resp now p st).storage.code_verifier = st.code_verifier ∧
    (handleCallback resp now p st).storage.auth_state = none := by
  by_cases hs : p.state = none ∨ p.state ≠ st.auth_state
  · rw [handleCallback_eq_mismatch resp now p st hs]; exact ⟨rfl, rfl⟩
  · by_cases he : jsTruthy p.error = true
    · rw [handleCallback_eq_provider resp now p st hs he]; exact ⟨rfl, rfl⟩
    · have he' : jsTruthy p.error = false := by
        cases hE : jsTruthy p.error
        · rfl
        · exact absurd hE he
      by_cases hc : jsTruthy p.code = true
      · have hx := handleCallback_eq_exchange resp now p st hs he' hc
        constructor
        · rw [hx.2.1, getAccessToken_storage_verifier]
        · rw [hx.2.1, getAccessToken_storage_auth]
      · have hc' : jsTruthy p.code = false := by
          cases hC : jsTruthy p.code
          · rfl
          · exact absurd hC hc
        rw [handleCallback_eq_missing resp now p st hs he' hc']
        exact ⟨rfl, rfl⟩

/-- On the full success path the exchange stores the token and the computed
expiration time, and nothing else changes. -/
theorem getAccessToken_success_storage (now : Nat) (code : String)
    (st : Storage) (tok? : Option String) (ei? : Option Nat)
    (hv : jsTruthy st.code_verifier = true) (ht : jsTruthy tok? = true) :
    (getAccessToken (.success tok? ei?) now code st).storage =
      { st with
        token_expiration := some (now + expiresInOrDefault ei? * 1000),
        access_token := some (tok?.getD "") } := by
  simp only [getAccessToken]
  rw [if_pos hv, if_pos ht]

/-- The exchange returns a token exactly when the verifier is stored, the
response is a success, and its `access_token` field is a non-empty string. -/
theorem getAccessToken_token_eq (resp : TokenResponse) (now : Nat)
    (code : String) (st : Storage) (t : String) :
    (getAccessToken resp now code st).token = some t ↔
      (jsTruthy st.code_verifier = true ∧ t ≠ "" ∧
       ∃ e, resp = .success (some t) e) := by
  simp only [getAccessToken]
  by_cases hv : jsTruthy st.code_verifier = true
  · rw [if_pos hv]
    cases resp with
    | netError =>
      dsimp only
      constructor
      · intro h; cases h
      · rintro ⟨-, -, e, heq⟩; cases heq
    | httpError =>
      dsimp only
      constructor
      · intro h; cases h
      · rintro ⟨-, -, e, heq⟩; cases heq
    | success tok? ei? =>
      dsimp only
      by_cases ht : jsTruthy tok? = true
      · rw [if_pos ht]
        cases tok? with
        | none => simp [jsTruthy] at ht
        | some s =>
          have hs : s ≠ "" := by simpa [jsTruthy] using ht
          constructor
          · intro h
            have h' : s = t := by simpa using h
            subst h'
            exact ⟨hv, hs, ei?, rfl⟩
          · rintro ⟨-, -, e, heq⟩
            cases heq
            rfl
      · rw [if_neg ht]
        constructor
        · intro h; cases h
        · rintro ⟨-, hne, e, heq⟩
          cases heq
          exact absurd (show jsTruthy (some t) = true by simp [jsTruthy, hne]) ht
  · rw [if_neg hv]
    constructor
    · intro h; cases h
    · rintro ⟨hv', -, -⟩
      exact absurd hv' hv

/-- C9: `handleCallback` (and the `getAccessToken` it delegates to) is a
total function of its inputs — every failure path (absent or mismatched
state, error parameter, missing code, missing stored verifier, non-ok HTTP
status, missing `access_token` field, or a thrown network error) yields
`null` rather than an exception, and a token is returned exactly on the full
success path. -/
theorem C9_token_iff_full_success (resp : TokenResponse) (now : Nat)
    (p : CallbackParams) (st : Storage) (t : String) :
    (handleCallback resp now p st).token = some t ↔
      (¬(p.state = none ∨ p.state ≠ st.auth_state) ∧
       jsTruthy p.error = false ∧ jsTruthy p.code = true ∧
       jsTruthy st.code_verifier = true ∧ t ≠ "" ∧
       ∃ e, resp = .success (some t) e) := by
  by_cases hs : p.state = none ∨ p.state ≠ st.auth_state
  · rw [handleCallback_eq_mismatch resp now p st hs]
    simp [hs]
  · by_cases he : jsTruthy p.error = true
    · rw [handleCallback_eq_provider resp now p st hs he]
      simp [he]
    · have he' : jsTruthy p.error = false := by
        cases hE : jsTruthy p.error
        · rfl
        · exact absurd hE he
      by_cases hc : jsTruthy p.code = true
      · have hx := handleCallback_eq_exchange resp now p st hs he' hc
        rw [hx.1, getAccessToken_token_eq]
        constructor
        · rintro ⟨hv, hne, e, heq⟩
          exact ⟨hs, he', hc, hv, hne, e, heq⟩
        · rintro ⟨-, -, -, hv, hne, e, heq⟩
          exact ⟨hv, hne, e, heq⟩
      · have hc' : jsTruthy p.code = false := by
          cases hC : jsTruthy p.code
          · rfl
          · exact absurd hC hc
        rw [handleCallback_eq_missing resp now p st hs he' hc']
        simp [hc']

/-- C10: a success response without `expires_in` is defaulted to 3600
seconds; the persisted expiration is always `Date.now() + expiresIn * 1000`
epoch milliseconds (with `expiresIn` the defaulted value); and on any
non-success exchange the previously stored token and expiration are left
unchanged. -/
theorem C10_expiration_computation (resp : TokenResponse) (now : Nat)
    (code : String) (st : Storage) (tok? : Option String) (ei? : Option Nat) :
    (jsTruthy st.code_verifier = true → jsTruthy tok? = true →
      (getAccessToken (.success tok? none) now code st).storage.token_expiration =
        some (now + 3600 * 1000)) ∧
    (jsTruthy st.code_verifier = true → jsTruthy tok? = true →
      (getAccessToken (.success tok? ei?) now code st).storage.token_expiration =
        some (now + expiresInOrDefault ei? * 1000)) ∧
    ((getAccessToken resp now code st).token = none →
      (getAccessToken resp now code st).storage.access_token = st.access_token ∧
      (getAccessToken resp now code st).storage.token_expiration = st.token_expiration) := by
  refine ⟨fun hv ht => ?_, fun hv ht => ?_, fun h => ?_⟩
  · rw [getAccessToken_success_storage now code st tok? none hv ht]
    rfl
  · rw [getAccessToken_success_storage now code st tok? ei? hv ht]
  · rw [getAccessToken_none_storage resp now code st h]
    exact ⟨rfl, rfl⟩

/-- C10 witness: with a stored verifier and a success response lacking
`expires_in`, the stored expiration is `now + 3600000`; a failing exchange
leaves prior token state alone. -/
theorem C10_expiration_computation_witness :
    (getAccessToken (.success (some "tok1") none) 5 "abc"
        ⟨some "v", none, some "old", some 42, none⟩).storage.token_expiration =
      some 3600005 ∧
    (getAccessToken .httpError 5 "abc"
        ⟨some "v", none, some "old", some 42, none⟩).storage.access_token =
      some "old" :=
  have h := C10_expiration_computation .httpError 5 "abc"
    ⟨some "v", none, some "old", some 42, none⟩ (some "tok1") none
  ⟨by rw [h.1 rfl rfl], (h.2.2 (by decide)).1⟩

/-- Embedding of the login check run when the music window opens
(types.d.ts lines 285-295): `localStorage.getItem('spotify_access_token')`
followed by a truthiness test — nothing in the repository ever reads
`spotify_token_expiration`. -/
def isAuthenticated (st : Storage) : Bool := jsTruthy st.access_token

/-- Follows the spec's words (`isAuthenticated() -> boolean`: true iff a
persisted, non-expired access token exists): token present and
`now < expiresAt`, parsing the stored epoch-milliseconds string.  Written for
comparison against `isAuthenticated`, which is the source's behaviour. -/
def specIsAuthenticated (st : Storage) (now : Nat) : Bool :=
  jsTruthy st.access_token &&
    (match st.token_expiration with
     | some e => decide (now < e)
     | none => false)

/-- C4 counterexample: after a successful exchange at time 0 with
`expires_in = 3600`, the code's check is still true at `now = 3601000` ms
(3601 s later), while the spec's non-expired check is false — the stored
expiration is never consulted. -/
theorem C4_expiry_ignored_counterexample :
    isAuthenticated
      ((getAccessToken (.success (some "tok1") (some 3600)) 0 "abc123"
          ⟨some "v", none, none, none, none⟩).storage) = true ∧
    specIsAuthenticated
      ((getAccessToken (.success (some "tok1") (some 3600)) 0 "abc123"
          ⟨some "v", none, none, none, none⟩).storage) 3601000 = false := by
  constructor
  · rfl
  · decide

/-- C4 amended: the authentication check is token-presence only — after any
successful exchange it is true, and it is invariant under arbitrary changes
to the stored `spotify_token_expiration`, so it remains true after expiry. -/
theorem C4_presence_only (now : Nat) (code : String) (st : Storage)
    (tok? : Option String) (ei? : Option Nat)
    (hv : jsTruthy st.code_verifier = true) (ht : jsTruthy tok? = true) :
    isAuthenticated (getAccessToken (.success tok? ei?) now code st).storage = true ∧
    ∀ (s : Storage) (e : Option Nat),
      isAuthenticated { s with token_expiration := e } = isAuthenticated s := by
  constructor
  · rw [getAccessToken_success_storage now code st tok? ei? hv ht]
    cases tok? with
    | none => simp [jsTruthy] at ht
    | some s => simpa [isAuthenticated, jsTruthy] using ht
  · intro s e
    rfl

/-- C4 amended witness: a concrete successful exchange leaves the check true,
also with the expiration field overwritten. -/
theorem C4_presence_only_witness :
    isAuthenticated
      ((getAccessToken (.success (some "tok1") (some 3600)) 0 "abc"
          ⟨some "v", none, none, none, none⟩).storage) = true ∧
    isAuthenticated
      { (⟨some "v", none, some "tok1", some 0, none⟩ : Storage) with
        token_expiration := some 99 } =
      isAuthenticated (⟨some "v", none, some "tok1", some 0, none⟩ : Storage) :=
  have h := C4_presence_only 0 "abc" ⟨some "v", none, none, none, none⟩
    (some "tok1") (some 3600) rfl rfl
  ⟨h.1, h.2 ⟨some "v", none, some "tok1", some 0, none⟩ (some 99)⟩

/-- Outcome of a provider Web API call: resolved, or rejected with an HTTP
status code carried on the error object. -/
inductive ApiResult where
  | ok
  | err (status : Int)
deriving DecidableEq, Repr

/-- Result of `handleNext` / `handlePrev`: the locally-cached track index
afterwards and whether a skip request was sent. -/
structure SkipResult where
  index : Int
  skipRequested : Bool
deriving DecidableEq, Repr

/-- Embedding of `handleNext` (types.d.ts lines 577-590): with a player and
a truthy stored token it requests `skipToNext`; only the resolved (`then`)
branch updates the cached index to `(prev + 1) % shuffledPlaylist.length`;
the `catch` branch only logs. -/
def handleNext (player : Bool) (token : Option String) (skip : ApiResult)
    (len : Int) (i : Int) : SkipResult :=
  if player then
    if jsTruthy token then
      match skip with
      | .ok => ⟨(i + 1) % len, true⟩
      | .err _ => ⟨i, true⟩
    else ⟨i, false⟩
  else ⟨i, false⟩

/-- Embedding of `handlePrev` (types.d.ts lines 592-605): as `handleNext`
but the resolved branch sets `(prev - 1 + shuffledPlaylist.length) %
shuffledPlaylist.length`. -/
def handlePrev (player : Bool) (token : Option String) (skip : ApiResult)
    (len : Int) (i : Int) : SkipResult :=
  if player then
    if jsTruthy token then
      match skip with
      | .ok => ⟨(i - 1 + len) % len, true⟩
      | .err _ => ⟨i, true⟩
    else ⟨i, false⟩
  else ⟨i, false⟩

/-- C6 counterexample: when the transport request fails (here with status
502) the cached index is left at 0 instead of `(0 + 1) % 3 = 1` — the claim
that the index updates regardless of transport success is false. -/
theorem C6_no_update_on_failure_counterexample :
    (handleNext true (some "t") (.err 502) 3 0).index = 0 ∧
    ((0 : Int) + 1) % 3 = 1 ∧ (0 : Int) ≠ 1 := by
  refine ⟨rfl, by decide, by decide⟩

/-- C6 amended: on transport success `handleNext` sets `(i + 1) % L` and
`handlePrev` sets `(i - 1 + L) % L`, wrapping in both directions (`L-1 → 0`
and `0 → L-1`); on transport failure the cached index is unchanged. -/
theorem C6_skip_index_semantics (token : Option String) (len i : Int)
    (hl : 0 < len) (hi : 0 ≤ i) (hil : i < len)
    (htk : jsTruthy token = true) :
    (handleNext true token .ok len i).index = (i + 1) % len ∧
    (handlePrev true token .ok len i).index = (i - 1 + len) % len ∧
    (i = len - 1 → (handleNext true token .ok len i).index = 0) ∧
    (i = 0 → (handlePrev true token .ok len i).index = len - 1) ∧
    (∀ s, (handleNext true token (.err s) len i).index = i) ∧
    (∀ s, (handlePrev true token (.err s) len i).index = i) := by
  have hnext : (handleNext true token .ok len i).index = (i + 1) % len := by
    simp [handleNext, htk]
  have hprev : (handlePrev true token .ok len i).index = (i - 1 + len) % len := by
    simp [handlePrev, htk]
  refine ⟨hnext, hprev, ?_, ?_, ?_, ?_⟩
  · intro hw
    rw [hnext, hw]
    have h1 : len - 1 + 1 = len := by ring
    rw [h1, Int.emod_self]
  · intro hw
    rw [hprev, hw]
    have h1 : (0 : Int) - 1 + len = len - 1 := by ring
    rw [h1, Int.emod_eq_of_lt (by omega) (by omega)]
  · intro s
    simp [handleNext, htk]
  · intro s
    simp [handlePrev, htk]

/-- C6 amended witness: on a length-3 playlist at index 2, a successful skip
wraps to 0, and a failed skip leaves the index at 2. -/
theorem C6_skip_index_semantics_witness :
    (handleNext true (some "t") .ok 3 2).index = 0 ∧
    (handleNext true (some "t") (.err 502) 3 2).index = 2 :=
  have h := C6_skip_index_semantics (some "t") 3 2 (by decide) (by decide)
    (by decide) rfl
  ⟨h.2.2.1 (by decide), h.2.2.2.2.1 502⟩

/-- Result of the volume-input onChange handler: the component volume state
afterwards and the value of the `spotifyApi.setVolume` network call, if one
was made. -/
structure VolumeResult where
  volumeState : Int
  call : Option Int
deriving DecidableEq, Repr

/-- Embedding of the volume range-input onChange handler
(types.d.ts lines 880-895): it parses the event value, stores it as the
local volume state unconditionally, and — when a player instance and a
stored token exist — forwards exactly that value to `spotifyApi.setVolume`.
The handler contains no range validation; the bounds 0..100 exist only as
the `min`/`max` attributes of the HTML input element. -/
def volumeOnChange (player : Bool) (token : Option String) (value : Int) :
    VolumeResult :=
  if player then
    if jsTruthy token then ⟨value, some value⟩
    else ⟨value, none⟩
  else ⟨value, none⟩

/-- C7 counterexample: the out-of-range values 150 and -1, fed to the
handler with a player and token present, are forwarded to the provider —
no `ValidationError`, and a network call is made. -/
theorem C7_no_validation_counterexample :
    (volumeOnChange true (some "t") 150).call = some 150 ∧
    (volumeOnChange true (some "t") (-1)).call = some (-1) := by
  exact ⟨rfl, rfl⟩

/-- C7 amended: the handler performs no validation — whatever integer the
change event carries becomes the local volume state, and it is forwarded to
the provider exactly when a player and a truthy token exist (so 0 and 100,
like every other value, are forwarded); out-of-range values are prevented
only by the input element's `min="0"`/`max="100"` attributes, not by this
code. -/
theorem C7_volume_forwarding (player : Bool) (token : Option String)
    (v : Int) :
    (volumeOnChange player token v).volumeState = v ∧
    ((volumeOnChange player token v).call = some v ↔
      (player = true ∧ jsTruthy token = true)) ∧
    (volumeOnChange true (some "t") 0).call = some 0 ∧
    (volumeOnChange true (some "t") 100).call = some 100 := by
  refine ⟨?_, ⟨?_, ?_⟩, rfl, rfl⟩
  · cases player with
    | false => rfl
    | true =>
      by_cases ht : jsTruthy token = true
      · simp [volumeOnChange, ht]
      · simp only [Bool.not_eq_true] at ht
        simp [volumeOnChange, ht]
  · intro h
    cases player with
    | false => cases h
    | true =>
      by_cases ht : jsTruthy token = true
      · exact ⟨rfl, ht⟩
      · simp only [Bool.not_eq_true] at ht
        simp [volumeOnChange, ht] at h
  · rintro ⟨hp, ht⟩
    subst hp
    simp [volumeOnChange, ht]

/-- A device entry as returned by `getMyDevices`: the `id` field of the Web
API is `string | null`, plus the `is_active` flag. -/
structure Device where
  id : Option String
  is_active : Bool
deriving DecidableEq, Repr

/-- Oracle for the asynchronous calls `handleSongClick` can make, in source
order: the SDK `player.getCurrentState()` (rejected, or resolved with a
truthy `state.device.id`, `none` standing for a null state or one without a
truthy device id); `getMyDevices` inside the `getDeviceId` helper; the first
`spotifyApi.play`; `getMyDevices` inside the 404 handler; the retry `play`.
-/
structure ClickEnv where
  player : Bool
  token : Option String
  playlist : List String
  storedDeviceId : Option String
  stateRes : Except Unit (Option String)
  devicesA : Except Unit (List Device)
  play1 : ApiResult
  devicesB : Except Unit (List Device)
  play2 : ApiResult
deriving Repr

/-- Embedding of the `getDeviceId` helper inside `handleSongClick`
(types.d.ts lines 617-643): start from `localStorage['spotify_device_id']`;
a truthy `state.device.id` wins outright; otherwise, if the stored id is
falsy, fetch the device list and take the active device's truthy id, else
fall back to the first device's id; a fetch error leaves the stored value.
Returns the chosen id and whether the device list was fetched. -/
def getDeviceId (stored : Option String) (stateDev : Option String)
    (devs : Except Unit (List Device)) : Option String × Bool :=
  match stateDev with
  | some d => (some d, false)
  | none =>
    if jsTruthy stored then (stored, false)
    else
      match devs with
      | .error _ => (stored, true)
      | .ok devices =>
        let fromActive : Option String :=
          match devices.find? (fun d => d.is_active) with
          | some a => match a.id with
                      | some s => if s = "" then none else some s
                      | none => none
          | none => none
        match fromActive, devices with
        | none, d0 :: _ => (d0.id, true)
        | fa, _ => (fa, true)

/-- Result of `handleSongClick`: the cached track index and playing flag
afterwards, the device ids targeted by `play` calls in order, and how many
times the device list was fetched. -/
structure ClickResult where
  index : Nat
  isPlaying : Bool
  playAttempts : List (Option String)
  deviceFetches : Nat
deriving DecidableEq, Repr

/-- Embedding of the `.catch` handler of the first `play` call inside
`handleSongClick` (types.d.ts lines 657-701): on status 404 it updates the
cached index immediately, fetches the device list once more, and — only if
an active device is found there — retries `play` on that device (a second
failure is merely logged); status 403 and any other error just update the
cached index. -/
def onPlayError (status : Int) (devicesB : Except Unit (List Device))
    (play2 : ApiResult) (idx : Nat) (p0 : Bool) (did : Option String)
    (f0 : Nat) : ClickResult :=
  if status = 404 then
    match devicesB with
    | .error _ => ⟨idx, p0, [did], f0 + 1⟩
    | .ok devices =>
      if devices.length > 0 then
        match devices.find? (fun d => d.is_active) with
        | some a =>
          match play2 with
          | .ok => ⟨idx, true, [did, a.id], f0 + 1⟩
          | .err _ => ⟨idx, p0, [did, a.id], f0 + 1⟩
        | none => ⟨idx, p0, [did], f0 + 1⟩
      else ⟨idx, p0, [did], f0 + 1⟩
  else if status = 403 then ⟨idx, p0, [did], f0⟩
  else ⟨idx, p0, [did], f0⟩

/-- Embedding of `handleSongClick` (types.d.ts lines 607-727).  With a
player: if the token is truthy and the clicked index is in range, get the
SDK state (a rejection just updates the index), resolve a device id via
`getDeviceId`, and if it is truthy call `play`; success records the index
and sets playing; an error is handled by `onPlayError`; a falsy device id
just updates the index.  Without a player: the index is updated when a
token and the track exist. -/
def handleSongClick (env : ClickEnv) (idx : Nat) (i0 : Nat) (p0 : Bool) :
    ClickResult :=
  if env.player then
    if jsTruthy env.token ∧ idx < env.playlist.length then
      match env.stateRes with
      | .error _ => ⟨idx, p0, [], 0⟩
      | .ok stateDev =>
        if jsTruthy (getDeviceId env.storedDeviceId stateDev env.devicesA).1 then
          match env.play1 with
          | .ok =>
            ⟨idx, true, [(getDeviceId env.storedDeviceId stateDev env.devicesA).1],
             if (getDeviceId env.storedDeviceId stateDev env.devicesA).2 then 1 else 0⟩
          | .err status =>
            onPlayError status env.devicesB env.play2 idx p0
              (getDeviceId env.storedDeviceId stateDev env.devicesA).1
              (if (getDeviceId env.storedDeviceId stateDev env.devicesA).2 then 1 else 0)
        else
          ⟨idx, p0, [],
           if (getDeviceId env.storedDeviceId stateDev env.devicesA).2 then 1 else 0⟩
    else ⟨i0, p0, [], 0⟩
  else
    if jsTruthy env.token ∧ idx < env.playlist.length then ⟨idx, p0, [], 0⟩
    else ⟨i0, p0, [], 0⟩

/-- Follows the spec's words for `resolveActiveDevice` (section 4.2):
prefer a device flagged active, fall back to the first listed device,
absent when the list is empty.  Written for comparison against the 404
handler of `handleSongClick`, which retries only on an active device. -/
def specResolveActiveDevice (devices : List Device) : Option Device :=
  match devices.find? (fun d => d.is_active) with
  | some d => some d
  | none => devices.head?

/-- Any run of the 404 handler makes at most one retry play call (so at most
two play attempts appear in a whole click, counting the original). -/
theorem onPlayError_attempts_len (status : Int)
    (devicesB : Except Unit (List Device)) (play2 : ApiResult) (idx : Nat)
    (p0 : Bool) (did : Option String) (f0 : Nat) :
    (onPlayError status devicesB play2 idx p0 did f0).playAttempts.length ≤ 2 := by
  simp only [onPlayError]
  by_cases h4 : status = (404 : Int)
  · rw [if_pos h4]
    cases devicesB with
    | error e => simp
    | ok devices =>
      dsimp only
      by_cases hlen : devices.length > 0
      · rw [if_pos hlen]
        cases hf : devices.find? (fun d => d.is_active) with
        | some a => cases play2 <;> simp
        | none => simp
      · rw [if_neg hlen]
        simp
  · rw [if_neg h4]
    by_cases h3 : status = (403 : Int)
    · rw [if_pos h3]
      simp
    · rw [if_neg h3]
      simp

/-- The 404 handler always updates the cached index to the clicked track and
re-fetches the device list exactly once. -/
theorem onPlayError_404_index_fetch
    (devicesB : Except Unit (List Device)) (play2 : ApiResult) (idx : Nat)
    (p0 : Bool) (did : Option String) (f0 : Nat) :
    (onPlayError 404 devicesB play2 idx p0 did f0).index = idx ∧
    (onPlayError 404 devicesB play2 idx p0 did f0).deviceFetches = f0 + 1 := by
  simp only [onPlayError, if_pos]
  cases devicesB with
  | error e => exact ⟨rfl, rfl⟩
  | ok devices =>
    dsimp only
    by_cases hlen : devices.length > 0
    · rw [if_pos hlen]
      cases hf : devices.find? (fun d => d.is_active) with
      | some a => cases play2 <;> exact ⟨rfl, rfl⟩
      | none => exact ⟨rfl, rfl⟩
    · rw [if_neg hlen]
      exact ⟨rfl, rfl⟩

/-- In the 404 handler, a retry is attempted precisely when the freshly
fetched list contains a device flagged active, and it targets that device;
with a non-empty list lacking an active device, or an empty list, the
original attempt remains the only one. -/
theorem onPlayError_404_retry_iff_active (devices : List Device)
    (play2 : ApiResult) (idx : Nat) (p0 : Bool) (did : Option String)
    (f0 : Nat) :
    (∀ a, devices.find? (fun d => d.is_active) = some a →
      (onPlayError 404 (.ok devices) play2 idx p0 did f0).playAttempts =
        [did, a.id]) ∧
    (devices.find? (fun d => d.is_active) = none →
      (onPlayError 404 (.ok devices) play2 idx p0 did f0).playAttempts =
        [did]) := by
  constructor
  · intro a hf
    have hlen : devices.length > 0 := by
      cases devices with
      | nil => cases hf
      | cons d ds => simp
    simp only [onPlayError, if_pos]
    rw [if_pos hlen, hf]
    cases play2 <;> rfl
  · intro hf
    by_cases hlen : devices.length > 0
    · simp only [onPlayError, if_pos]
      rw [if_pos hlen, hf]
    · simp only [onPlayError, if_pos]
      rw [if_neg hlen]

/-- C5 counterexample: a click whose first `play` gets 404 and whose fresh
device list is `[{id: "d1", is_active: false}]`.  The spec's resolver yields
that device (fallback to the first listed), so the claim requires a retry on
it; the code makes no second play attempt at all, because the 404 handler
retries only on a device flagged active. -/
theorem C5_no_retry_without_active_counterexample :
    specResolveActiveDevice [⟨some "d1", false⟩] = some ⟨some "d1", false⟩ ∧
    (handleSongClick
        ⟨true, some "t", ["s1"], some "d0", .ok none, .ok [],
         .err 404, .ok [⟨some "d1", false⟩], .ok⟩ 0 0 false).playAttempts =
      [some "d0"] ∧
    (handleSongClick
        ⟨true, some "t", ["s1"], some "d0", .ok none, .ok [],
         .err 404, .ok [⟨some "d1", false⟩], .ok⟩ 0 0 false).deviceFetches = 1 := by
  refine ⟨rfl, ?_, ?_⟩ <;> decide

/-- C5 amended: every click makes at most two play attempts (at most one
retry); on a 404 from the first play the handler updates the cached index to
the requested track and re-fetches the device list exactly once, retrying
precisely when that list contains a device flagged active (targeting that
device); with no active device no retry occurs and the failure is only
logged, never surfaced as a structured error. -/
theorem C5_single_retry_on_active (env : ClickEnv) (idx i0 : Nat) (p0 : Bool)
    (devices : List Device) (play2 : ApiResult) (did : Option String)
    (f0 : Nat) :
    (handleSongClick env idx i0 p0).playAttempts.length ≤ 2 ∧
    ((onPlayError 404 (.ok devices) play2 idx p0 did f0).index = idx ∧
     (onPlayError 404 (.ok devices) play2 idx p0 did f0).deviceFetches = f0 + 1) ∧
    (∀ a, devices.find? (fun d => d.is_active) = some a →
      (onPlayError 404 (.ok devices) play2 idx p0 did f0).playAttempts =
        [did, a.id]) ∧
    (devices.find? (fun d => d.is_active) = none →
      (onPlayError 404 (.ok devices) play2 idx p0 did f0).playAttempts = [did]) := by
  refine ⟨?_, onPlayError_404_index_fetch (.ok devices) play2 idx p0 did f0,
    (onPlayError_404_retry_iff_active devices play2 idx p0 did f0).1,
    (onPlayError_404_retry_iff_active devices play2 idx p0 did f0).2⟩
  simp only [handleSongClick]
  by_cases hp : env.player = true
  · rw [if_pos hp]
    by_cases hc : jsTruthy env.token = true ∧ idx < env.playlist.length
    · rw [if_pos hc]
      cases hs : env.stateRes with
      | error e => simp
      | ok stateDev =>
        dsimp only
        by_cases hd : jsTruthy
            (getDeviceId env.storedDeviceId stateDev env.devicesA).1 = true
        · rw [if_pos hd]
          cases hp1 : env.play1 with
          | ok => simp
          | err s => exact onPlayError_attempts_len s env.devicesB env.play2 idx p0 _ _
        · rw [if_neg hd]
          simp
    · rw [if_neg hc]
      simp
  · rw [if_neg hp]
    by_cases hc : jsTruthy env.token = true ∧ idx < env.playlist.length
    · rw [if_pos hc]
      simp
    · rw [if_neg hc]
      simp

/-- C5 amended witness: on the concrete 404 click with an inactive-only
fresh list, the attempt count is within the bound, the index was still set
to the clicked track, and no retry was attempted. -/
theorem C5_single_retry_on_active_witness :
    (handleSongClick
        ⟨true, some "t", ["s1"], some "d0", .ok none, .ok [],
         .err 404, .ok [⟨some "d1", false⟩], .ok⟩ 0 5 false).playAttempts.length ≤ 2 ∧
    (onPlayError 404 (.ok [⟨some "d1", false⟩]) .ok 0 false (some "d0") 0).index = 0 ∧
    (onPlayError 404 (.ok [⟨some "d1", false⟩]) .ok 0 false (some "d0") 0).playAttempts =
      [some "d0"] :=
  have h := C5_single_retry_on_active
    ⟨true, some "t", ["s1"], some "d0", .ok none, .ok [],
     .err 404, .ok [⟨some "d1", false⟩], .ok⟩ 0 5 false
    [⟨some "d1", false⟩] .ok (some "d0") 0
  ⟨h.1, h.2.1.1, h.2.2.2 (by decide)⟩

/-- The 66-character charset `possible` of `generateCodeVerifier`
(spotifyAuth line 24): `[A-Za-z0-9-._~]`. -/
def verifierCharset : String :=
  "ABCDEFGHIJKLMNOPQRSTUVWXYZabcdefghijklmnopqrstuvwxyz0123456789-._~"

/-- The 62-character charset `possible` of `generateRandomString`
(spotifyAuth line 77): alphanumerics only. -/
def stateCharset : String :=
  "ABCDEFGHIJKLMNOPQRSTUVWXYZabcdefghijklmnopqrstuvwxyz0123456789"

/-- Embedding of `generateCodeVerifier` (spotifyAuth lines 22-31): the loop
`text += possible.charAt(Math.floor(Math.random() * possible.length))`.
The random draws are the input stream `rand`; `Math.floor(Math.random() * 66)`
always lies in `0..65`, which callers record as a hypothesis. -/
def generateCodeVerifier (length : Nat) (rand : Nat → Nat) : String :=
  String.mk ((List.range length).map fun i => verifierCharset.data.getD (rand i) 'A')

/-- Embedding of `generateRandomString` (spotifyAuth lines 76-85), the CSRF
state generator over the 62-character alphanumeric charset. -/
def generateRandomString (length : Nat) (rand : Nat → Nat) : String :=
  String.mk ((List.range length).map fun i => stateCharset.data.getD (rand i) 'A')

/-- The standard base64 alphabet used by `btoa`. -/
def b64Chars : List Char :=
  "ABCDEFGHIJKLMNOPQRSTUVWXYZabcdefghijklmnopqrstuvwxyz0123456789+/".data

/-- The base64url alphabet (RFC 4648 section 5). -/
def b64UrlChars : List Char :=
  "ABCDEFGHIJKLMNOPQRSTUVWXYZabcdefghijklmnopqrstuvwxyz0123456789-_".data

/-- Embedding of `btoa(String.fromCharCode(...digest))`: standard base64 of
a byte list, with `=` padding.  The four sextets of a 3-byte group
`a,b,c` are `a/4`, `a%4*16 + b/16`, `b%16*4 + c/64`, `c%64`. -/
def btoaBytes : List Nat → List Char
  | [] => []
  | [a] => [b64Chars.getD (a / 4) ' ', b64Chars.getD (a % 4 * 16) ' ', '=', '=']
  | [a, b] => [b64Chars.getD (a / 4) ' ', b64Chars.getD (a % 4 * 16 + b / 16) ' ',
               b64Chars.getD (b % 16 * 4) ' ', '=']
  | a :: b :: c :: rest =>
      b64Chars.getD (a / 4) ' ' :: b64Chars.getD (a % 4 * 16 + b / 16) ' ' ::
      b64Chars.getD (b % 16 * 4 + c / 64) ' ' :: b64Chars.getD (c % 64) ' ' ::
      btoaBytes rest

/-- base64url without padding, the encoding the spec names
(`base64url(SHA-256(verifier))` with padding stripped), defined directly
over the url alphabet for comparison with the source's
btoa-replace-strip pipeline. -/
def base64UrlNoPad : List Nat → List Char
  | [] => []
  | [a] => [b64UrlChars.getD (a / 4) ' ', b64UrlChars.getD (a % 4 * 16) ' ']
  | [a, b] => [b64UrlChars.getD (a / 4) ' ', b64UrlChars.getD (a % 4 * 16 + b / 16) ' ',
               b64UrlChars.getD (b % 16 * 4) ' ']
  | a :: b :: c :: rest =>
      b64UrlChars.getD (a / 4) ' ' :: b64UrlChars.getD (a % 4 * 16 + b / 16) ' ' ::
      b64UrlChars.getD (b % 16 * 4 + c / 64) ' ' :: b64UrlChars.getD (c % 64) ' ' ::
      base64UrlNoPad rest

/-- The two global char replacements `replace(/\+/g,'-').replace(/\//g,'_')`
of `generateCodeChallenge`, fused into one character map. -/
def urlSafeChar (c : Char) : Char :=
  if c = '+' then '-' else if c = '/' then '_' else c

/-- Character-wise application of the url-safe replacements. -/
def urlSafe (l : List Char) : List Char := l.map urlSafeChar

/-- The trailing-padding strip `replace(/=+$/, '')`: drop the maximal run of
`=` at the end. -/
def stripTrailingEq (l : List Char) : List Char :=
  (l.reverse.dropWhile (fun c => c = '=')).reverse

/-- Embedding of `new TextEncoder().encode(s)` as the code-point list; this
coincides with UTF-8 for the ASCII strings `generateCodeVerifier`
produces, which are its only inputs in the source. -/
def textEncode (s : String) : List Nat := s.data.map Char.toNat

/-- Embedding of `generateCodeChallenge` (spotifyAuth lines 33-41): base64
the SHA-256 digest bytes (the digest itself is the abstract `sha256`
parameter — a browser primitive), replace `+`/`/`, strip `=` padding. -/
def generateCodeChallenge (sha256 : List Nat → List Nat)
    (codeVerifier : String) : String :=
  String.mk (stripTrailingEq (urlSafe (btoaBytes (sha256 (textEncode codeVerifier)))))

/-- The scope list of the source (spotifyAuth lines 7-17). -/
def scopes : List String :=
  ["streaming", "user-read-email", "user-read-private",
   "user-read-playback-state", "user-modify-playback-state",
   "user-read-currently-playing", "playlist-read-private",
   "playlist-read-collaborative", "app-remote-control"]

/-- `process.env.NEXT_PUBLIC_SPOTIFY_CLIENT_ID || '8c6c...'`
(spotifyAuth line 4), with the environment value as a parameter. -/
def clientId (env : Option String) : String :=
  if jsTruthy env then env.getD "" else "8c6c0ff17bee46ea9aec45c4d095cfcb"

/-- The fixed redirect URI (spotifyAuth line 5). -/
def redirectUri : String := "http://127.0.0.1:3000/callback"

/-- Result of `getSpotifyLoginUrl`: the authorization endpoint, the query
parameters in construction order (the returned URL is
`urlBase ++ "?" ++ serialisation of params`), the storage afterwards, and
the generated verifier and state. -/
structure LoginUrlResult where
  urlBase : String
  params : List (String × String)
  storage : Storage
  codeVerifier : String
  state : String
deriving DecidableEq, Repr

/-- Embedding of `getSpotifyLoginUrl` (spotifyAuth lines 44-73): generate a
128-character verifier, derive the challenge, store the verifier, generate a
16-character state, store it, and build the `URLSearchParams` in source
order. -/
def getSpotifyLoginUrl (env : Option String) (sha256 : List Nat → List Nat)
    (randV randS : Nat → Nat) (st : Storage) : LoginUrlResult :=
  let codeVerifier := generateCodeVerifier 128 randV
  let codeChallenge := generateCodeChallenge sha256 codeVerifier
  let st₁ := { st with code_verifier := some codeVerifier }
  let state := generateRandomString 16 randS
  let st₂ := { st₁ with auth_state := some state }
  { urlBase := "https://accounts.spotify.com/authorize"
    params := [("client_id", clientId env), ("response_type", "code"),
               ("redirect_uri", redirectUri),
               ("scope", String.intercalate " " scopes),
               ("show_dialog", "true"), ("state", state),
               ("code_challenge_method", "S256"),
               ("code_challenge", codeChallenge)]
    storage := st₂
    codeVerifier := codeVerifier
    state := state }

/-- Replacing `+`/`/` in the base64 alphabet at any index gives the
base64url alphabet at the same index (out-of-range indices give the shared
default on both sides). -/
theorem urlSafeChar_b64Chars (i : Nat) :
    urlSafeChar (b64Chars.getD i ' ') = b64UrlChars.getD i ' ' := by
  by_cases h : i < 64
  · exact (by decide :
      ∀ j, j < 64 → urlSafeChar (b64Chars.getD j ' ') = b64UrlChars.getD j ' ') i h
  · have h1 : b64Chars.length ≤ i := by
      have : b64Chars.length = 64 := by decide
      omega
    have h2 : b64UrlChars.length ≤ i := by
      have : b64UrlChars.length = 64 := by decide
      omega
    rw [List.getD_eq_default _ _ h1, List.getD_eq_default _ _ h2]
    decide

/-- No base64url alphabet character (nor the out-of-range default) is the
padding character. -/
theorem b64UrlChars_getD_ne_eq (i : Nat) : b64UrlChars.getD i ' ' ≠ '=' := by
  by_cases h : i < 64
  · exact (by decide : ∀ j, j < 64 → b64UrlChars.getD j ' ' ≠ '=') i h
  · have h2 : b64UrlChars.length ≤ i := by
      have : b64UrlChars.length = 64 := by decide
      omega
    rw [List.getD_eq_default _ _ h2]
    decide

/-- Stripping trailing `=` commutes with prepending padding-free text. -/
theorem stripTrailingEq_append (xs ys : List Char)
    (h : ∀ c ∈ xs, c ≠ '=') :
    stripTrailingEq (xs ++ ys) = xs ++ stripTrailingEq ys := by
  unfold stripTrailingEq
  rw [List.reverse_append, List.dropWhile_append]
  by_cases he : (List.dropWhile (fun c => decide (c = '=')) ys.reverse).isEmpty = true
  · rw [if_pos he]
    have h0 : List.dropWhile (fun c => decide (c = '=')) ys.reverse = [] := by
      simpa [List.isEmpty_iff] using he
    rw [h0]
    have hx : List.dropWhile (fun c => decide (c = '=')) xs.reverse = xs.reverse := by
      cases hxr : xs.reverse with
      | nil => rfl
      | cons a l =>
        rw [List.dropWhile_cons]
        have ha : a ∈ xs := by
          have : a ∈ xs.reverse := by
            rw [hxr]
            exact List.mem_cons_self a l
          simpa using this
        rw [if_neg (by simpa using h a ha)]
    rw [hx]
    simp
  · rw [if_neg he]
    rw [List.reverse_append, List.reverse_reverse]

/-- Stripping two trailing pads from a 4-character block. -/
theorem stripTrailingEq_two_pad (v1 v2 : Char) (h2 : v2 ≠ '=') :
    stripTrailingEq [v1, v2, '=', '='] = [v1, v2] := by
  simp [stripTrailingEq, List.dropWhile_cons, h2]

/-- Stripping one trailing pad from a 4-character block. -/
theorem stripTrailingEq_one_pad (v1 v2 v3 : Char) (h3 : v3 ≠ '=') :
    stripTrailingEq [v1, v2, v3, '='] = [v1, v2, v3] := by
  simp [stripTrailingEq, List.dropWhile_cons, h3]

/-- The source's pipeline — btoa, then `+`/`/` replacement, then padding
strip — coincides with direct, unpadded base64url on every byte list. -/
theorem btoa_urlSafe_strip_eq_base64url (bytes : List Nat) :
    stripTrailingEq (urlSafe (btoaBytes bytes)) = base64UrlNoPad bytes := by
  have heq : urlSafeChar '=' = '=' := by decide
  suffices h : ∀ n (l : List Nat), l.length ≤ n →
      stripTrailingEq (urlSafe (btoaBytes l)) = base64UrlNoPad l from
    h bytes.length bytes le_rfl
  intro n
  induction n with
  | zero =>
    intro l hl
    have : l = [] := List.eq_nil_of_length_eq_zero (Nat.le_zero.mp hl)
    subst this
    rfl
  | succ n ih =>
    intro l hl
    match l with
    | [] => rfl
    | [a] =>
      show stripTrailingEq (urlSafe (btoaBytes [a])) = base64UrlNoPad [a]
      simp only [btoaBytes, urlSafe, List.map_cons, List.map_nil,
        urlSafeChar_b64Chars, heq]
      exact stripTrailingEq_two_pad _ _ (b64UrlChars_getD_ne_eq _)
    | [a, b] =>
      show stripTrailingEq (urlSafe (btoaBytes [a, b])) = base64UrlNoPad [a, b]
      simp only [btoaBytes, urlSafe, List.map_cons, List.map_nil,
        urlSafeChar_b64Chars, heq]
      exact stripTrailingEq_one_pad _ _ _ (b64UrlChars_getD_ne_eq _)
    | a :: b :: c :: rest =>
      have hr : rest.length ≤ n := by
        simp only [List.length_cons] at hl
        omega
      show stripTrailingEq (urlSafe (btoaBytes (a :: b :: c :: rest))) =
        base64UrlNoPad (a :: b :: c :: rest)
      have hsplit : urlSafe (btoaBytes (a :: b :: c :: rest)) =
          [b64UrlChars.getD (a / 4) ' ',
           b64UrlChars.getD (a % 4 * 16 + b / 16) ' ',
           b64UrlChars.getD (b % 16 * 4 + c / 64) ' ',
           b64UrlChars.getD (c % 64) ' '] ++ urlSafe (btoaBytes rest) := by
        simp only [btoaBytes, urlSafe, List.map_cons, urlSafeChar_b64Chars]
        rfl
      rw [hsplit, stripTrailingEq_append _ _ (by
        intro ch hch
        simp only [List.mem_cons, List.not_mem_nil, or_false] at hch
        rcases hch with h1 | h1 | h1 | h1 <;>
          · subst h1
            exact b64UrlChars_getD_ne_eq _), ih rest hr]
      rfl

/-- `generateCodeChallenge` computes exactly unpadded base64url of the
digest of the UTF-8 bytes of the verifier — the PKCE S256 transform. -/
theorem generateCodeChallenge_eq (sha256 : List Nat → List Nat)
    (v : String) :
    generateCodeChallenge sha256 v =
      String.mk (base64UrlNoPad (sha256 (textEncode v))) := by
  unfold generateCodeChallenge
  rw [btoa_urlSafe_strip_eq_base64url]

/-- C3: `getSpotifyLoginUrl` generates a verifier of length exactly 128
drawn from `[A-Za-z0-9-._~]`, persists the verifier and the fresh CSRF
state in storage, and builds the authorization URL over exactly the query
parameters `client_id`, `response_type=code`, `redirect_uri`,
`scope` (space-joined), `show_dialog=true`, `state`,
`code_challenge_method=S256` and `code_challenge`, the challenge being
unpadded base64url of the SHA-256 digest of the verifier.  The hypothesis
records that `Math.floor(Math.random() * 66)` lies in `0..65`. -/
theorem C3_begin_login (env : Option String) (sha256 : List Nat → List Nat)
    (randV randS : Nat → Nat) (st : Storage)
    (hr : ∀ i, randV i < 66) :
    (getSpotifyLoginUrl env sha256 randV randS st).codeVerifier.length = 128 ∧
    (∀ c ∈ (getSpotifyLoginUrl env sha256 randV randS st).codeVerifier.data,
      c ∈ verifierCharset.data) ∧
    (getSpotifyLoginUrl env sha256 randV randS st).storage.code_verifier =
      some (getSpotifyLoginUrl env sha256 randV randS st).codeVerifier ∧
    (getSpotifyLoginUrl env sha256 randV randS st).storage.auth_state =
      some (getSpotifyLoginUrl env sha256 randV randS st).state ∧
    (getSpotifyLoginUrl env sha256 randV randS st).urlBase =
      "https://accounts.spotify.com/authorize" ∧
    (getSpotifyLoginUrl env sha256 randV randS st).params =
      [("client_id", clientId env), ("response_type", "code"),
       ("redirect_uri", redirectUri),
       ("scope", String.intercalate " " scopes),
       ("show_dialog", "true"),
       ("state", (getSpotifyLoginUrl env sha256 randV randS st).state),
       ("code_challenge_method", "S256"),
       ("code_challenge",
        String.mk (base64UrlNoPad (sha256 (textEncode
          (getSpotifyLoginUrl env sha256 randV randS st).codeVerifier))))] := by
  refine ⟨?_, ?_, rfl, rfl, rfl, ?_⟩
  · show (generateCodeVerifier 128 randV).length = 128
    unfold generateCodeVerifier
    show ((List.range 128).map _).length = 128
    rw [List.length_map, List.length_range]
  · intro c hc
    simp only [getSpotifyLoginUrl, generateCodeVerifier, List.mem_map,
      List.mem_range] at hc
    obtain ⟨i, _, rfl⟩ := hc
    have hlen : verifierCharset.data.length = 66 := by decide
    have hlt : randV i < verifierCharset.data.length := by
      have := hr i
      omega
    rw [List.getD_eq_getElem _ _ hlt]
    exact List.getElem_mem hlt
  · simp only [getSpotifyLoginUrl, generateCodeChallenge_eq]

/-- C3 witness: with the all-zero random streams and an all-zero abstract
digest, the generated verifier has length 128 and both secrets are
persisted. -/
theorem C3_begin_login_witness :
    (getSpotifyLoginUrl none (fun _ => List.replicate 32 0) (fun _ => 0)
        (fun _ => 0) Storage.empty).codeVerifier.length = 128 ∧
    (getSpotifyLoginUrl none (fun _ => List.replicate 32 0) (fun _ => 0)
        (fun _ => 0) Storage.empty).storage.code_verifier =
      some (getSpotifyLoginUrl none (fun _ => List.replicate 32 0)
        (fun _ => 0) (fun _ => 0) Storage.empty).codeVerifier :=
  have h := C3_begin_login none (fun _ => List.replicate 32 0) (fun _ => 0)
    (fun _ => 0) Storage.empty (fun i => by show (0 : Nat) < 66; decide)
  ⟨h.1, h.2.2.1⟩

/-- C7 amended witness: a concrete in-range value is stored and forwarded. -/
theorem C7_volume_forwarding_witness :
    (volumeOnChange true (some "t") 55).volumeState = 55 ∧
    (volumeOnChange true (some "t") 55).call = some 55 :=
  have h := C7_volume_forwarding true (some "t") 55
  ⟨h.1, (h.2.1).mpr ⟨rfl, rfl⟩⟩

/-- C8 amended witness: a concrete failing callback leaves the stored
verifier in place. -/
theorem C8_verifier_persists_witness :
    (handleCallback .netError 0 ⟨some "c", none, some "S"⟩
        ⟨some "v", some "S", none, none, none⟩).storage.code_verifier =
      some "v" :=
  (C8_verifier_persists .netError 0 ⟨some "c", none, some "S"⟩
    ⟨some "v", some "S", none, none, none⟩).1

/-- C9 witness: the full success path returns the provider's token. -/
theorem C9_token_iff_full_success_witness :
    (handleCallback (.success (some "tok1") (some 3600)) 0
        ⟨some "abc", none, some "S"⟩
        ⟨some "v", some "S", none, none, none⟩).token = some "tok1" :=
  (C9_token_iff_full_success (.success (some "tok1") (some 3600)) 0
    ⟨some "abc", none, some "S"⟩ ⟨some "v", some "S", none, none, none⟩
    "tok1").mpr ⟨by decide, rfl, rfl, rfl, by decide, some 3600, rfl⟩
